import Mathlib

/-!
Shallow embedding of `src/src-tauri/src/ssh_tunnel.rs` (the SSH tunnel
manager of the seaquel repository) and proofs about it.

External effects (the SSH transport, the OS TCP stack, the filesystem)
are modelled by an `Env` oracle whose fields give the outcome of each
collaborator call; the control flow, field accesses, error messages and
error codes are translated directly from the Rust source.  The tokio
accept loop and the per-connection relay (`handle_connection`) are
modelled as deterministic functions of the sequence of events their
`select!` loops observe.
-/

namespace Seaquel

/-- `TunnelConfig` from ssh_tunnel.rs (lines 13-24). -/
structure TunnelConfig where
  ssh_host : String
  ssh_port : Nat
  ssh_username : String
  auth_method : String
  password : Option String
  key_path : Option String
  key_passphrase : Option String
  remote_host : String
  remote_port : Nat
deriving Repr, DecidableEq

/-- `TunnelResult` from ssh_tunnel.rs (lines 26-30). -/
structure TunnelResult where
  tunnel_id : String
  local_port : Nat
deriving Repr, DecidableEq

/-- `TunnelError` from ssh_tunnel.rs (lines 32-36): message plus stable code. -/
structure TunnelError where
  message : String
  code : String
deriving Repr, DecidableEq

/-- `TunnelHandle` from ssh_tunnel.rs (lines 46-49).  The oneshot sender is
modelled as `Option Unit`: `some ()` while the sender is still present. -/
structure TunnelHandle where
  shutdown_tx : Option Unit
  local_port : Nat
deriving Repr, DecidableEq

/-- The registry map `HashMap<String, TunnelHandle>` is modelled as an
association list; `insert` and `remove` below keep keys unique the way the
hash map does. -/
abbrev Registry := List (String × TunnelHandle)

/-- `TunnelManager` from ssh_tunnel.rs (lines 51-54). -/
structure TunnelManager where
  tunnels : Registry
  next_id : Nat
deriving Repr, DecidableEq

/-- `TunnelManager::new` (lines 57-62): empty map, counter starts at 1. -/
def TunnelManager.new : TunnelManager :=
  { tunnels := [], next_id := 1 }

/-- Keys of the registry (model of `HashMap::keys`). -/
def Registry.keysOf (m : Registry) : List String :=
  m.map (fun p => p.1)

/-- Model of `HashMap::contains_key`. -/
def Registry.containsKey (m : Registry) (k : String) : Bool :=
  m.any (fun p => p.1 == k)

/-- Model of `HashMap::get` / lookup. -/
def Registry.lookupKey (m : Registry) (k : String) : Option TunnelHandle :=
  match m with
  | [] => none
  | p :: rest => if p.1 == k then some p.2 else Registry.lookupKey rest k

/-- Model of `HashMap::remove` (drops every pair at the key; on a map with
unique keys this is exactly one entry). -/
def Registry.removeKey (m : Registry) (k : String) : Registry :=
  m.filter (fun p => p.1 != k)

/-- Model of `HashMap::insert` (replaces any entry at the key). -/
def Registry.insertKey (m : Registry) (k : String) (v : TunnelHandle) : Registry :=
  (k, v) :: Registry.removeKey m k

/-- Outcome of `client::connect` wrapped in `tokio::time::timeout`
(ssh_tunnel.rs lines 121-133). -/
inductive ConnectResult
  | timeout
  | connectError (e : String)
  | ok
deriving Repr, DecidableEq

/-- Outcome of an `authenticate_password` / `authenticate_publickey` call:
either the transport errors out, or it reports whether the server accepted
the credentials. -/
inductive AuthCallResult
  | callError (e : String)
  | ok (authenticated : Bool)
deriving Repr, DecidableEq

/-- A loaded private key (opaque to this layer; russh `PrivateKey`). -/
structure PrivateKey where
  keyBytes : String
deriving Repr, DecidableEq

/-- Outcome of binding `127.0.0.1:0` (ssh_tunnel.rs lines 183-188). -/
inductive BindResult
  | bindError (e : String)
  | ok
deriving Repr, DecidableEq

/-- Oracle for every collaborator call `establish_tunnel` makes: the SSH
transport, the filesystem and the OS TCP stack. -/
structure Env where
  connect : ConnectResult
  authenticate_password : String → String → AuthCallResult
  authenticate_publickey : String → PrivateKey → AuthCallResult
  path_exists : String → Bool
  load_secret_key : String → Option String → Except String PrivateKey
  bind : BindResult
  local_addr : Except String Nat

/-- Network events on the SSH transport, recorded in the order
`establish_tunnel` performs them. -/
inductive NetEvent
  | connectAttempt
  | passwordAuthAttempt
  | publickeyAuthAttempt
deriving Repr, DecidableEq

/-- `load_private_key` from ssh_tunnel.rs (lines 96-110). -/
def load_private_key (env : Env) (key_path : String) (passphrase : Option String) :
    Except TunnelError PrivateKey :=
  if !env.path_exists key_path then
    .error { message := "SSH key file not found: " ++ key_path,
             code := "KEY_NOT_FOUND" }
  else
    match env.load_secret_key key_path passphrase with
    | .error e => .error { message := "Failed to load SSH key: " ++ e,
                           code := "KEY_LOAD_ERROR" }
    | .ok k => .ok k

/-- Result of one call to `establish_tunnel`: the value returned to the
caller, the manager state afterwards, and the trace of network events on
the SSH transport. -/
structure EstablishOutcome where
  result : Except TunnelError TunnelResult
  manager : TunnelManager
  netTrace : List NetEvent
deriving Repr

/-- The authentication dispatch of `establish_tunnel` (ssh_tunnel.rs lines
136-173), reached only after `client::connect` succeeded.  Returns the
`authenticated` boolean or the error, together with the auth-phase network
events. -/
def authStep (env : Env) (config : TunnelConfig) :
    Except TunnelError Bool × List NetEvent :=
  match config.auth_method with
  | "password" =>
    match config.password with
    | none =>
      (.error { message := "Password required for password authentication",
                code := "AUTH_ERROR" }, [])
    | some password =>
      match env.authenticate_password config.ssh_username password with
      | .callError e =>
        (.error { message := "Password authentication failed: " ++ e,
                  code := "AUTH_FAILED" }, [.passwordAuthAttempt])
      | .ok b => (.ok b, [.passwordAuthAttempt])
  | "key" =>
    match config.key_path with
    | none =>
      (.error { message := "Key path required for key authentication",
                code := "AUTH_ERROR" }, [])
    | some key_path =>
      match load_private_key env key_path config.key_passphrase with
      | .error err => (.error err, [])
      | .ok private_key =>
        match env.authenticate_publickey config.ssh_username private_key with
        | .callError e =>
          (.error { message := "Key authentication failed: " ++ e,
                    code := "AUTH_FAILED" }, [.publickeyAuthAttempt])
        | .ok b => (.ok b, [.publickeyAuthAttempt])
  | other =>
    (.error { message := "Unknown auth method: " ++ other,
              code := "INVALID_AUTH_METHOD" }, [])

/-- `establish_tunnel` from ssh_tunnel.rs (lines 112-262), following the
source control flow exactly: connect (with timeout), authenticate, check
the `authenticated` flag, bind, read the bound port, generate the id from
`next_id`, insert the handle into the registry, spawn the accept loop
(modelled separately as `acceptLoop`), return. -/
def establish_tunnel (env : Env) (config : TunnelConfig) (m : TunnelManager) :
    EstablishOutcome :=
  match env.connect with
  | .timeout =>
    { result := .error { message := "Connection timed out", code := "TIMEOUT" },
      manager := m, netTrace := [.connectAttempt] }
  | .connectError e =>
    { result := .error { message := "Failed to connect to SSH server: " ++ e,
                         code := "CONNECTION_ERROR" },
      manager := m, netTrace := [.connectAttempt] }
  | .ok =>
    match authStep env config with
    | (.error err, evs) =>
      { result := .error err, manager := m, netTrace := .connectAttempt :: evs }
    | (.ok authenticated, evs) =>
      if !authenticated then
        { result := .error { message := "Authentication failed", code := "AUTH_FAILED" },
          manager := m, netTrace := .connectAttempt :: evs }
      else
        match env.bind with
        | .bindError e =>
          { result := .error { message := "Failed to bind local port: " ++ e,
                               code := "BIND_ERROR" },
            manager := m, netTrace := .connectAttempt :: evs }
        | .ok =>
          match env.local_addr with
          | .error e =>
            { result := .error { message := "Failed to get local address: " ++ e,
                                 code := "BIND_ERROR" },
              manager := m, netTrace := .connectAttempt :: evs }
          | .ok local_port =>
            let n := m.next_id
            let tunnel_id := "tunnel-" ++ Nat.repr n
            let handle : TunnelHandle := { shutdown_tx := some (), local_port := local_port }
            let m1 : TunnelManager := { m with next_id := n + 1 }
            let m2 : TunnelManager :=
              { m1 with tunnels := Registry.insertKey m1.tunnels tunnel_id handle }
            { result := .ok { tunnel_id := tunnel_id, local_port := local_port },
              manager := m2, netTrace := .connectAttempt :: evs }

/-- `create_ssh_tunnel` (lines 313-319) delegates to `establish_tunnel`. -/
def create_ssh_tunnel (env : Env) (config : TunnelConfig) (m : TunnelManager) :
    EstablishOutcome :=
  establish_tunnel env config m

/-- Result of `close_ssh_tunnel`: value, manager afterwards, and how many
cancellation signals were fired by this call. -/
structure CloseOutcome where
  result : Except TunnelError Unit
  manager : TunnelManager
  fired : Nat
deriving Repr

/-- `close_ssh_tunnel` from ssh_tunnel.rs (lines 321-339): remove the entry;
if it was present, fire its oneshot sender (when still there) and return Ok;
otherwise return the TUNNEL_NOT_FOUND error. -/
def close_ssh_tunnel (tunnel_id : String) (m : TunnelManager) : CloseOutcome :=
  match Registry.lookupKey m.tunnels tunnel_id with
  | some handle =>
    { result := .ok (),
      manager := { m with tunnels := Registry.removeKey m.tunnels tunnel_id },
      fired := if handle.shutdown_tx.isSome then 1 else 0 }
  | none =>
    { result := .error { message := "Tunnel not found: " ++ tunnel_id,
                         code := "TUNNEL_NOT_FOUND" },
      manager := m, fired := 0 }

/-- `check_tunnel_status` from ssh_tunnel.rs (lines 341-348): reads the map,
returns `contains_key`, leaves the manager as it found it. -/
def check_tunnel_status (tunnel_id : String) (m : TunnelManager) :
    Bool × TunnelManager :=
  (Registry.containsKey m.tunnels tunnel_id, m)

/-- `list_active_tunnels` from ssh_tunnel.rs (lines 350-356): the keys of the
map, manager untouched. -/
def list_active_tunnels (m : TunnelManager) : List String × TunnelManager :=
  (Registry.keysOf m.tunnels, m)

/-- `close_all` from ssh_tunnel.rs (lines 64-71): drain the map, firing every
still-present sender. -/
def close_all (m : TunnelManager) : TunnelManager × Nat :=
  ({ m with tunnels := [] },
   (m.tunnels.filter (fun p => p.2.shutdown_tx.isSome)).length)

/-- The tunnel id built at ssh_tunnel.rs lines 199-204 from the counter. -/
def mkTunnelId (n : Nat) : String :=
  "tunnel-" ++ Nat.repr n

/-- A sequence of `open` calls against one manager (the `create_ssh_tunnel`
command invoked repeatedly on the managed `TunnelManager`): each step has its
own collaborator outcomes and its own config. -/
def runOpens (steps : List (Env × TunnelConfig)) (m : TunnelManager) :
    List (Except TunnelError TunnelResult) × TunnelManager :=
  match steps with
  | [] => ([], m)
  | (env, config) :: rest =>
    let out := establish_tunnel env config m
    let restRun := runOpens rest out.manager
    (out.result :: restRun.1, restRun.2)

/-- The tunnel identifiers handed out by a sequence of open results. -/
def issuedIds (results : List (Except TunnelError TunnelResult)) : List String :=
  results.filterMap (fun r => match r with
    | .ok t => some t.tunnel_id
    | .error _ => none)

/-! ### The per-connection relay (`handle_connection`, ssh_tunnel.rs 264-311)

The relay's `select!` loop is modelled as a function of the sequence of
events the loop observes: each event is either the outcome of
`local_read.read` (a byte chunk; the empty chunk is `Ok(0)`, i.e. EOF; or
an error) or the outcome of `channel.wait()` (`none` when the channel is
closed).  Outputs are the `channel.data` calls and the `write_all` calls
the loop makes, in order. -/

/-- russh `ChannelMsg` as seen by the relay loop; `data` and `eof` are the
variants the source matches on, the rest fall to its `_ => {}` arm. -/
inductive ChannelMessage
  | data (d : List Nat)
  | eof
  | close
  | extendedData (d : List Nat) (ext : Nat)
  | windowAdjusted (newSize : Nat)
  | success
  | exitStatus (code : Nat)
deriving Repr, DecidableEq

/-- One event observed by the relay's `select!` loop. -/
inductive RelayEvent
  | localRead (bytes : List Nat)
  | localReadErr (e : String)
  | channelMsg (msg : Option ChannelMessage)
deriving Repr, DecidableEq

/-- One output action of the relay: a data frame sent on the channel, or a
verbatim write to the local socket. -/
inductive RelayOutput
  | channelData (bytes : List Nat)
  | localWrite (bytes : List Nat)
deriving Repr, DecidableEq

/-- The relay loop of `handle_connection` (ssh_tunnel.rs lines 280-308):
a non-empty local read is forwarded as one channel data frame; a zero-byte
read (EOF) or a local read error breaks the loop; a `Data` frame is written
verbatim to the local socket; `Eof` or a closed channel (`None`) breaks the
loop; every other channel message is ignored. -/
def handle_connection : List RelayEvent → List RelayOutput
  | [] => []
  | .localRead [] :: _ => []
  | .localRead bs :: rest => .channelData bs :: handle_connection rest
  | .localReadErr _ :: _ => []
  | .channelMsg (some (.data d)) :: rest => .localWrite d :: handle_connection rest
  | .channelMsg (some .eof) :: _ => []
  | .channelMsg none :: _ => []
  | .channelMsg (some _) :: rest => handle_connection rest

/-- The events on which the relay loop terminates: local EOF, local read
error, channel EOF, channel closed. -/
def relayStops : RelayEvent → Bool
  | .localRead [] => true
  | .localReadErr _ => true
  | .channelMsg (some .eof) => true
  | .channelMsg none => true
  | _ => false

/-- The byte chunk of a successful non-empty local read. -/
def localReadBytes : RelayEvent → Option (List Nat)
  | .localRead bs => some bs
  | _ => none

/-- The payload of an incoming channel `Data` frame. -/
def channelDataBytes : RelayEvent → Option (List Nat)
  | .channelMsg (some (.data d)) => some d
  | _ => none

/-- The payload of an outgoing channel data frame. -/
def outChannelData : RelayOutput → Option (List Nat)
  | .channelData bs => some bs
  | _ => none

/-- The payload of a write to the local socket. -/
def outLocalWrite : RelayOutput → Option (List Nat)
  | .localWrite bs => some bs
  | _ => none

/-- Channel messages the relay's `_ => {}` arm silently discards. -/
def ignoredMsg : ChannelMessage → Bool
  | .data _ => false
  | .eof => false
  | _ => true

/-! ### The accept loop (ssh_tunnel.rs 226-256)

The spawned forwarding task alternates between the oneshot shutdown
receiver and `listener.accept()`; it is modelled as a function of the
sequence of events its `select!` observes, returning the connections it
spawns a relay for, in order. -/

/-- One event observed by the accept loop. -/
inductive AcceptEvent
  | shutdown
  | accept (connId : Nat)
  | acceptErr (e : String)
deriving Repr, DecidableEq

/-- The accept loop: shutdown breaks it; a successful accept spawns a relay
and continues; an accept error is logged and the loop continues. -/
def acceptLoop : List AcceptEvent → List Nat
  | [] => []
  | .shutdown :: _ => []
  | .accept c :: rest => c :: acceptLoop rest
  | .acceptErr _ :: rest => acceptLoop rest

/-- Whether an accept-loop event is the shutdown signal. -/
def isShutdown : AcceptEvent → Bool
  | .shutdown => true
  | _ => false

/-- The connection of a successful accept. -/
def acceptedConn : AcceptEvent → Option Nat
  | .accept c => some c
  | _ => none

/-- A whole tunnel run: the accept loop spawns relays, and each spawned
relay runs `handle_connection` on its own event stream, independently of
the accept loop and of the other relays. -/
def tunnelRun (acceptEvs : List AcceptEvent) (relayEvs : Nat → List RelayEvent) :
    List (Nat × List RelayOutput) :=
  (acceptLoop acceptEvs).map (fun c => (c, handle_connection (relayEvs c)))

/-! ### Concrete fixtures for witnesses -/

/-- An environment in which every collaborator call succeeds. -/
def envAllOk : Env :=
  { connect := .ok,
    authenticate_password := fun _ _ => .ok true,
    authenticate_publickey := fun _ _ => .ok true,
    path_exists := fun _ => true,
    load_secret_key := fun p _ => .ok { keyBytes := p },
    bind := .ok,
    local_addr := .ok 54321 }

/-- An environment whose SSH connect times out. -/
def envTimeout : Env :=
  { envAllOk with connect := .timeout }

/-- A password-method config with the password present. -/
def cfgPassword : TunnelConfig :=
  { ssh_host := "bastion.example", ssh_port := 22, ssh_username := "deploy",
    auth_method := "password", password := some "hunter2",
    key_path := none, key_passphrase := none,
    remote_host := "db.internal", remote_port := 5432 }

/-- A password-method config whose password field is absent. -/
def cfgPasswordMissing : TunnelConfig :=
  { cfgPassword with password := none }

/-- A password-method config that also populates both key fields. -/
def cfgBothCreds : TunnelConfig :=
  { cfgPassword with key_path := some "/home/u/.ssh/id_ed25519",
                     key_passphrase := some "kp" }

/-- A key-method config. -/
def cfgKey : TunnelConfig :=
  { cfgPassword with auth_method := "key", password := none,
                     key_path := some "/home/u/.ssh/id_ed25519" }

/-! ### Decimal rendering: `Nat.repr` is injective

ssh_tunnel.rs builds ids as `format!("tunnel-{}", *next_id)`; distinctness
of the issued ids reduces to injectivity of the decimal rendering, proved
here by decoding the digit string back to the number. -/

/-- Numeric value of a decimal digit character. -/
def digitVal (c : Char) : Nat := c.toNat - 48

/-- Decode a most-significant-first decimal digit string. -/
def charsToNat (l : List Char) : Nat := l.foldl (fun a c => 10 * a + digitVal c) 0

lemma charsToNat_append_singleton (xs : List Char) (c : Char) :
    charsToNat (xs ++ [c]) = 10 * charsToNat xs + digitVal c := by
  simp [charsToNat, List.foldl_append]

lemma digitVal_digitChar (m : Nat) (h : m < 10) : digitVal (Nat.digitChar m) = m := by
  interval_cases m <;> decide

lemma toDigitsCore_append_eq (fuel : Nat) :
    ∀ (n : Nat) (ds : List Char),
      Nat.toDigitsCore 10 fuel n ds = Nat.toDigitsCore 10 fuel n [] ++ ds := by
  induction fuel with
  | zero => intro n ds; simp [Nat.toDigitsCore]
  | succ f ih =>
    intro n ds
    simp only [Nat.toDigitsCore]
    by_cases h : n / 10 = 0
    · simp [h]
    · simp only [h, if_false]
      rw [ih (n / 10) (Nat.digitChar (n % 10) :: ds),
          ih (n / 10) [Nat.digitChar (n % 10)]]
      simp

lemma charsToNat_toDigitsCore (n : Nat) :
    ∀ (fuel : Nat), n < fuel →
      charsToNat (Nat.toDigitsCore 10 fuel n []) = n := by
  induction n using Nat.strong_induction_on with
  | _ n ih =>
    intro fuel hfuel
    match fuel, hfuel with
    | f + 1, hfuel =>
      have hm : n % 10 < 10 := Nat.mod_lt _ (by norm_num)
      simp only [Nat.toDigitsCore]
      by_cases h : n / 10 = 0
      · have hdm := Nat.div_add_mod n 10
        rw [h] at hdm
        simp only [h, if_true, ite_true]
        simp [charsToNat, digitVal_digitChar _ hm]
        omega
      · have hn : 0 < n := by
          rcases Nat.eq_zero_or_pos n with hz | hp
          · exact absurd (by simp [hz]) h
          · exact hp
        have h1 : n / 10 < n := Nat.div_lt_self hn (by norm_num)
        have h2 : n / 10 < f := lt_of_lt_of_le h1 (Nat.lt_succ_iff.mp hfuel)
        simp only [h, if_false]
        rw [toDigitsCore_append_eq, charsToNat_append_singleton,
            ih (n / 10) h1 f h2, digitVal_digitChar _ hm]
        exact Nat.div_add_mod n 10

lemma charsToNat_repr (n : Nat) : charsToNat (Nat.repr n).data = n := by
  have hdata : (Nat.repr n).data = Nat.toDigitsCore 10 (n + 1) n [] := rfl
  rw [hdata]
  exact charsToNat_toDigitsCore n (n + 1) (Nat.lt_succ_self n)

lemma repr_injective : Function.Injective Nat.repr := by
  intro a b h
  have hd : (Nat.repr a).data = (Nat.repr b).data := congrArg String.data h
  have ha := charsToNat_repr a
  rw [hd, charsToNat_repr b] at ha
  exact ha.symm

lemma mkTunnelId_injective : Function.Injective mkTunnelId := by
  intro a b h
  apply repr_injective
  have hd := congrArg String.data h
  rw [mkTunnelId, mkTunnelId, String.data_append, String.data_append] at hd
  exact String.ext (List.append_cancel_left hd)

/-! ### Registry lemmas -/

lemma lookupKey_removeKey_self (m : Registry) (k : String) :
    Registry.lookupKey (Registry.removeKey m k) k = none := by
  induction m with
  | nil => rfl
  | cons p rest ih =>
    by_cases h : p.1 = k
    · simpa [Registry.removeKey, List.filter_cons, h] using ih
    · simp only [Registry.removeKey, List.filter_cons] at ih ⊢
      simp [h, Registry.lookupKey, ih]

lemma containsKey_iff_lookupKey (m : Registry) (k : String) :
    Registry.containsKey m k = true ↔ ∃ h, Registry.lookupKey m k = some h := by
  induction m with
  | nil => simp [Registry.containsKey, Registry.lookupKey]
  | cons p rest ih =>
    by_cases h : p.1 = k
    · simp [Registry.containsKey, Registry.lookupKey, h]
    · have hbeq : (p.1 == k) = false := by simp [h]
      simp only [Registry.containsKey, List.any_cons, hbeq, Bool.false_or,
        Registry.lookupKey, if_false]
      exact ih

lemma containsKey_removeKey_self (m : Registry) (k : String) :
    Registry.containsKey (Registry.removeKey m k) k = false := by
  by_contra hcontra
  have htrue : Registry.containsKey (Registry.removeKey m k) k = true := by
    revert hcontra
    cases Registry.containsKey (Registry.removeKey m k) k <;> simp
  obtain ⟨v, hv⟩ := (containsKey_iff_lookupKey _ _).mp htrue
  rw [lookupKey_removeKey_self] at hv
  exact Option.noConfusion hv

lemma not_mem_keysOf_removeKey (m : Registry) (k : String) :
    k ∉ Registry.keysOf (Registry.removeKey m k) := by
  simp only [Registry.keysOf, Registry.removeKey, List.mem_map]
  rintro ⟨p, hp, rfl⟩
  rw [List.mem_filter] at hp
  exact absurd hp.2 (by simp)

/-! ### Case analysis of one `establish_tunnel` call -/

/-- Every call either fails leaving the manager untouched, or succeeds with
the id minted from the current counter, the counter bumped by one and the
handle inserted. -/
lemma establish_tunnel_error_or_ok (env : Env) (config : TunnelConfig) (m : TunnelManager) :
    ((∃ e, (establish_tunnel env config m).result = .error e) ∧
      (establish_tunnel env config m).manager = m)
    ∨ (∃ lp,
        (establish_tunnel env config m).result =
          .ok { tunnel_id := mkTunnelId m.next_id, local_port := lp } ∧
        (establish_tunnel env config m).manager =
          { tunnels := Registry.insertKey m.tunnels (mkTunnelId m.next_id)
              { shutdown_tx := some (), local_port := lp },
            next_id := m.next_id + 1 }) := by
  unfold establish_tunnel
  cases hC : env.connect with
  | timeout => exact .inl ⟨⟨_, rfl⟩, rfl⟩
  | connectError e => exact .inl ⟨⟨_, rfl⟩, rfl⟩
  | ok =>
    rcases hA : authStep env config with ⟨res, evs⟩
    cases res with
    | error err =>
      simp only [hA]
      first
      | exact .inl ⟨⟨_, rfl⟩, rfl⟩
      | exact .inl ⟨⟨_, rfl⟩, trivial⟩
    | ok authenticated =>
      simp only [hA]
      cases authenticated with
      | false => exact .inl ⟨⟨_, rfl⟩, rfl⟩
      | true =>
        simp only [Bool.not_true]
        cases hB : env.bind with
        | bindError e => exact .inl ⟨⟨_, rfl⟩, rfl⟩
        | ok =>
          cases hL : env.local_addr with
          | error e => exact .inl ⟨⟨_, rfl⟩, rfl⟩
          | ok lp => exact .inr ⟨lp, rfl, rfl⟩

lemma runOpens_length (steps : List (Env × TunnelConfig)) (m : TunnelManager) :
    (runOpens steps m).1.length = steps.length := by
  induction steps generalizing m with
  | nil => rfl
  | cons s rest ih =>
    obtain ⟨env, config⟩ := s
    simp [runOpens, ih]

/-- Over any sequence of opens, the issued ids are exactly consecutive
counter values starting at the initial `next_id`, and the counter advances
by the number of successes. -/
lemma runOpens_spec (steps : List (Env × TunnelConfig)) (m : TunnelManager) :
    ∃ k, (runOpens steps m).2.next_id = m.next_id + k ∧
      issuedIds (runOpens steps m).1 =
        (List.range k).map (fun i => mkTunnelId (m.next_id + i)) := by
  induction steps generalizing m with
  | nil => exact ⟨0, by simp [runOpens], by simp [runOpens, issuedIds]⟩
  | cons s rest ih =>
    obtain ⟨env, config⟩ := s
    rcases establish_tunnel_error_or_ok env config m with ⟨⟨e, he⟩, hm⟩ | ⟨lp, hr, hm⟩
    · obtain ⟨k, hk1, hk2⟩ := ih ((establish_tunnel env config m).manager)
      rw [hm] at hk1 hk2
      refine ⟨k, ?_, ?_⟩
      · simp only [runOpens, hm]
        exact hk1
      · simp only [runOpens, hm, issuedIds, List.filterMap_cons, he]
        exact hk2
    · obtain ⟨k, hk1, hk2⟩ := ih ((establish_tunnel env config m).manager)
      rw [hm] at hk1 hk2
      refine ⟨k + 1, ?_, ?_⟩
      · simp only [runOpens, hm]
        rw [hk1]
        simp only []
        omega
      · simp only [runOpens, hm, issuedIds, List.filterMap_cons, hr]
        simp only [issuedIds] at hk2
        rw [hk2, List.range_succ_eq_map, List.map_cons, List.map_map]
        refine congrArg₂ List.cons (by rw [Nat.add_zero]) ?_
        refine List.map_congr_left ?_
        intro a _
        simp only [Function.comp]
        exact congrArg mkTunnelId (by omega)

/-! ### Error classification helpers -/

/-- The stable error codes of the establishment phase (§7 taxonomy as
realized in ssh_tunnel.rs). -/
def stableCodes : List String :=
  ["TIMEOUT", "CONNECTION_ERROR", "AUTH_ERROR", "AUTH_FAILED",
   "KEY_NOT_FOUND", "KEY_LOAD_ERROR", "INVALID_AUTH_METHOD", "BIND_ERROR"]

lemma append_ne_empty (a b : String) (h : a.data ≠ []) : a ++ b ≠ "" := by
  intro hc
  have hd : (a ++ b).data = [] := by rw [hc]
  rw [String.data_append] at hd
  exact h (List.append_eq_nil.mp hd).1

lemma load_private_key_error_spec (env : Env) (kp : String) (pp : Option String)
    (e : TunnelError) (h : load_private_key env kp pp = .error e) :
    e.message ≠ "" ∧ (e.code = "KEY_NOT_FOUND" ∨ e.code = "KEY_LOAD_ERROR") := by
  unfold load_private_key at h
  split at h
  · injection h with h'
    subst h'
    exact ⟨append_ne_empty _ _ (by decide), .inl rfl⟩
  · split at h
    · injection h with h'
      subst h'
      exact ⟨append_ne_empty _ _ (by decide), .inr rfl⟩
    · exact absurd h (by simp)

lemma authStep_error_spec (env : Env) (config : TunnelConfig) (e : TunnelError)
    (evs : List NetEvent) (h : authStep env config = (.error e, evs)) :
    e.message ≠ "" ∧ e.code ∈ stableCodes := by
  unfold authStep at h
  split at h
  · split at h
    · rw [Prod.mk.injEq] at h
      injection h.1 with h'
      subst h'
      exact ⟨by decide, by simp [stableCodes]⟩
    · split at h
      · rw [Prod.mk.injEq] at h
        injection h.1 with h'
        subst h'
        exact ⟨append_ne_empty _ _ (by decide), by simp [stableCodes]⟩
      · rw [Prod.mk.injEq] at h
        exact absurd h.1 (by simp)
  · split at h
    · rw [Prod.mk.injEq] at h
      injection h.1 with h'
      subst h'
      exact ⟨by decide, by simp [stableCodes]⟩
    · split at h
      · rename_i hload
        rw [Prod.mk.injEq] at h
        injection h.1 with h'
        subst h'
        obtain ⟨h1, h2⟩ := load_private_key_error_spec _ _ _ _ hload
        refine ⟨h1, ?_⟩
        rcases h2 with h2 | h2 <;> rw [h2] <;> simp [stableCodes]
      · split at h
        · rw [Prod.mk.injEq] at h
          injection h.1 with h'
          subst h'
          exact ⟨append_ne_empty _ _ (by decide), by simp [stableCodes]⟩
        · rw [Prod.mk.injEq] at h
          exact absurd h.1 (by simp)
  · rw [Prod.mk.injEq] at h
    injection h.1 with h'
    subst h'
    exact ⟨append_ne_empty _ _ (by decide), by simp [stableCodes]⟩

lemma establish_tunnel_error_spec (env : Env) (config : TunnelConfig)
    (m : TunnelManager) (e : TunnelError)
    (h : (establish_tunnel env config m).result = .error e) :
    e.message ≠ "" ∧ e.code ∈ stableCodes := by
  unfold establish_tunnel at h
  cases hC : env.connect with
  | timeout =>
    rw [hC] at h
    injection h with h'
    subst h'
    exact ⟨by decide, by simp [stableCodes]⟩
  | connectError ce =>
    rw [hC] at h
    injection h with h'
    subst h'
    exact ⟨append_ne_empty _ _ (by decide), by simp [stableCodes]⟩
  | ok =>
    rw [hC] at h
    rcases hA : authStep env config with ⟨res, evs⟩
    rw [hA] at h
    cases res with
    | error err =>
      simp only at h
      injection h with h'
      subst h'
      exact authStep_error_spec env config _ evs hA
    | ok authenticated =>
      cases authenticated with
      | false =>
        simp only [Bool.not_false] at h
        injection h with h'
        subst h'
        exact ⟨by decide, by simp [stableCodes]⟩
      | true =>
        simp only [Bool.not_true, if_false] at h
        cases hB : env.bind with
        | bindError be =>
          rw [hB] at h
          injection h with h'
          subst h'
          exact ⟨append_ne_empty _ _ (by decide), by simp [stableCodes]⟩
        | ok =>
          rw [hB] at h
          cases hL : env.local_addr with
          | error le =>
            rw [hL] at h
            injection h with h'
            subst h'
            exact ⟨append_ne_empty _ _ (by decide), by simp [stableCodes]⟩
          | ok lp =>
            rw [hL] at h
            exact absurd h (by simp)

lemma lookupKey_insertKey_self (m : Registry) (k : String) (v : TunnelHandle) :
    Registry.lookupKey (Registry.insertKey m k v) k = some v := by
  simp [Registry.insertKey, Registry.lookupKey]

lemma containsKey_false_lookup_none (m : Registry) (k : String)
    (h : Registry.containsKey m k = false) : Registry.lookupKey m k = none := by
  rcases hL : Registry.lookupKey m k with _ | v
  · rfl
  · have htrue := (containsKey_iff_lookupKey m k).mpr ⟨v, hL⟩
    rw [h] at htrue
    exact absurd htrue (by simp)

lemma issuedIds_length_of_all_ok (rs : List (Except TunnelError TunnelResult))
    (h : ∀ r ∈ rs, ∃ t, r = Except.ok t) : (issuedIds rs).length = rs.length := by
  induction rs with
  | nil => rfl
  | cons r rest ih =>
    obtain ⟨t, ht⟩ := h r (List.mem_cons_self r rest)
    subst ht
    have ihr := ih (fun r hr => h r (List.mem_cons_of_mem _ hr))
    simp only [issuedIds, List.filterMap_cons, List.length_cons] at ihr ⊢
    omega

/-! ### Accept-loop characterization -/

lemma acceptLoop_append_shutdown (pre post : List AcceptEvent) :
    acceptLoop (pre ++ .shutdown :: post) = acceptLoop (pre ++ [.shutdown]) := by
  induction pre with
  | nil => rfl
  | cons ev rest ih =>
    cases ev with
    | shutdown => rfl
    | accept c => simpa [acceptLoop] using ih
    | acceptErr e => simpa [acceptLoop] using ih

lemma acceptLoop_eq_takeWhile (evs : List AcceptEvent) :
    acceptLoop evs =
      (evs.takeWhile (fun ev => !isShutdown ev)).filterMap acceptedConn := by
  induction evs with
  | nil => rfl
  | cons ev rest ih =>
    cases ev with
    | shutdown => rfl
    | accept c =>
      simp [acceptLoop, isShutdown, acceptedConn, List.takeWhile_cons,
        List.filterMap_cons, ih]
    | acceptErr e =>
      simp [acceptLoop, isShutdown, acceptedConn, List.takeWhile_cons,
        List.filterMap_cons, ih]

/-- A manager holding exactly the tunnel of one successful open. -/
def mgrOne : TunnelManager :=
  (establish_tunnel envAllOk cfgPassword TunnelManager.new).manager

/-! ## Claims -/

/-- C1 (counterexample): with auth method "password" and an absent password,
`establish_tunnel` does NOT fail before a network connection attempt: when
the connect phase times out the caller sees TIMEOUT (not AUTH_ERROR), and
even when the connect succeeds the AUTH_ERROR is produced with the network
connection attempt already on the trace. -/
theorem c1_counterexample :
    cfgPasswordMissing.auth_method = "password" ∧
    cfgPasswordMissing.password = none ∧
    (establish_tunnel envTimeout cfgPasswordMissing TunnelManager.new).result =
      .error { message := "Connection timed out", code := "TIMEOUT" } ∧
    (establish_tunnel envAllOk cfgPasswordMissing TunnelManager.new).result =
      .error { message := "Password required for password authentication",
               code := "AUTH_ERROR" } ∧
    (establish_tunnel envAllOk cfgPasswordMissing TunnelManager.new).netTrace =
      [.connectAttempt] ∧
    (establish_tunnel envAllOk cfgPasswordMissing TunnelManager.new).netTrace ≠ [] :=
  ⟨rfl, rfl, rfl, rfl, rfl, by decide⟩

/-- C1 (amended): with auth method "password" and an absent password,
provided the SSH connect phase succeeds, `establish_tunnel` fails with the
missing-credential AUTH_ERROR, registers nothing, and performs no
authentication exchange — the check happens after the connection attempt
and before any credentials are submitted. -/
theorem c1_theorem (env : Env) (config : TunnelConfig) (m : TunnelManager)
    (h1 : config.auth_method = "password") (h2 : config.password = none)
    (h3 : env.connect = .ok) :
    (establish_tunnel env config m).result =
      .error { message := "Password required for password authentication",
               code := "AUTH_ERROR" } ∧
    (establish_tunnel env config m).manager = m ∧
    (establish_tunnel env config m).netTrace = [.connectAttempt] := by
  have hA : authStep env config =
      (.error { message := "Password required for password authentication",
                code := "AUTH_ERROR" }, []) := by
    unfold authStep
    rw [h1, h2]
    rfl
  unfold establish_tunnel
  rw [h3, hA]
  exact ⟨rfl, rfl, rfl⟩

/-- C1 witness: the amended theorem applied to a concrete config and a
successfully-connecting environment. -/
theorem c1_witness :
    (establish_tunnel envAllOk cfgPasswordMissing TunnelManager.new).result =
      .error { message := "Password required for password authentication",
               code := "AUTH_ERROR" } ∧
    (establish_tunnel envAllOk cfgPasswordMissing TunnelManager.new).manager =
      TunnelManager.new ∧
    (establish_tunnel envAllOk cfgPasswordMissing TunnelManager.new).netTrace =
      [.connectAttempt] :=
  c1_theorem envAllOk cfgPasswordMissing TunnelManager.new rfl rfl rfl

/-- C2: every establishment failure returns a typed error with a nonempty
message and a stable code while leaving the registry (and counter) exactly
as they were; every success has the new tunnel's handle inserted in the
returned registry before the result reaches the caller. -/
theorem c2_theorem (env : Env) (config : TunnelConfig) (m : TunnelManager) :
    (∀ e, (establish_tunnel env config m).result = .error e →
      (establish_tunnel env config m).manager = m ∧
      e.message ≠ "" ∧ e.code ∈ stableCodes) ∧
    (∀ t, (establish_tunnel env config m).result = .ok t →
      Registry.lookupKey (establish_tunnel env config m).manager.tunnels t.tunnel_id =
        some { shutdown_tx := some (), local_port := t.local_port }) := by
  constructor
  · intro e he
    obtain ⟨h1, h2⟩ := establish_tunnel_error_spec env config m e he
    rcases establish_tunnel_error_or_ok env config m with ⟨_, hm⟩ | ⟨lp, hr, _⟩
    · exact ⟨hm, h1, h2⟩
    · rw [hr] at he
      exact absurd he (by simp)
  · intro t ht
    rcases establish_tunnel_error_or_ok env config m with ⟨⟨e, he⟩, _⟩ | ⟨lp, hr, hm⟩
    · rw [he] at ht
      exact absurd ht (by simp)
    · rw [hr] at ht
      injection ht with ht'
      subst ht'
      rw [hm]
      exact lookupKey_insertKey_self _ _ _

/-- C2 witness: the failure half at a timing-out environment, and the
success half at an all-succeeding one. -/
theorem c2_witness :
    ((establish_tunnel envTimeout cfgPassword TunnelManager.new).manager =
       TunnelManager.new ∧
     ({ message := "Connection timed out", code := "TIMEOUT" } : TunnelError).message ≠ "" ∧
     ({ message := "Connection timed out", code := "TIMEOUT" } : TunnelError).code ∈
       stableCodes) ∧
    Registry.lookupKey
        (establish_tunnel envAllOk cfgPassword TunnelManager.new).manager.tunnels
        "tunnel-1" =
      some { shutdown_tx := some (), local_port := 54321 } :=
  ⟨(c2_theorem envTimeout cfgPassword TunnelManager.new).1 _ rfl,
   (c2_theorem envAllOk cfgPassword TunnelManager.new).2
     { tunnel_id := "tunnel-1", local_port := 54321 } rfl⟩

lemma close_ssh_tunnel_eq_none (m : TunnelManager) (tid : String)
    (h : Registry.lookupKey m.tunnels tid = none) :
    close_ssh_tunnel tid m =
      { result := .error { message := "Tunnel not found: " ++ tid,
                           code := "TUNNEL_NOT_FOUND" },
        manager := m, fired := 0 } := by
  unfold close_ssh_tunnel
  rw [h]

lemma close_ssh_tunnel_eq_some (m : TunnelManager) (tid : String) (v : TunnelHandle)
    (h : Registry.lookupKey m.tunnels tid = some v) :
    close_ssh_tunnel tid m =
      { result := .ok (),
        manager := { m with tunnels := Registry.removeKey m.tunnels tid },
        fired := if v.shutdown_tx.isSome then 1 else 0 } := by
  unfold close_ssh_tunnel
  rw [h]

/-- C3: closing an id that is not in the registry returns TUNNEL_NOT_FOUND,
fires no cancellation handle and leaves the registry untouched; after any
close of an id, a second close of the same id is rejected as not found and
fires nothing (removal is the single gate), and a single close fires at
most one handle. -/
theorem c3_theorem (m : TunnelManager) (tid : String) :
    (Registry.containsKey m.tunnels tid = false →
      (close_ssh_tunnel tid m).result =
        .error { message := "Tunnel not found: " ++ tid, code := "TUNNEL_NOT_FOUND" } ∧
      (close_ssh_tunnel tid m).fired = 0 ∧
      (close_ssh_tunnel tid m).manager = m) ∧
    ((close_ssh_tunnel tid (close_ssh_tunnel tid m).manager).result =
       .error { message := "Tunnel not found: " ++ tid, code := "TUNNEL_NOT_FOUND" } ∧
     (close_ssh_tunnel tid (close_ssh_tunnel tid m).manager).fired = 0 ∧
     (close_ssh_tunnel tid (close_ssh_tunnel tid m).manager).manager =
       (close_ssh_tunnel tid m).manager) ∧
    (close_ssh_tunnel tid m).fired ≤ 1 := by
  refine ⟨?_, ?_, ?_⟩
  · intro h
    rw [close_ssh_tunnel_eq_none m tid (containsKey_false_lookup_none _ _ h)]
    exact ⟨rfl, rfl, rfl⟩
  · have hnone2 : Registry.lookupKey (close_ssh_tunnel tid m).manager.tunnels tid =
        none := by
      rcases hL : Registry.lookupKey m.tunnels tid with _ | v
      · rw [close_ssh_tunnel_eq_none m tid hL]
        exact hL
      · rw [close_ssh_tunnel_eq_some m tid v hL]
        exact lookupKey_removeKey_self _ _
    rw [close_ssh_tunnel_eq_none _ tid hnone2]
    exact ⟨rfl, rfl, rfl⟩
  · rcases hL : Registry.lookupKey m.tunnels tid with _ | v
    · rw [close_ssh_tunnel_eq_none m tid hL]
      simp
    · rw [close_ssh_tunnel_eq_some m tid v hL]
      cases v.shutdown_tx <;> simp

/-- C3 witness: closing a never-issued id on the fresh manager. -/
theorem c3_witness :
    ((close_ssh_tunnel "tunnel-7" TunnelManager.new).result =
       .error { message := "Tunnel not found: " ++ "tunnel-7",
                code := "TUNNEL_NOT_FOUND" } ∧
     (close_ssh_tunnel "tunnel-7" TunnelManager.new).fired = 0 ∧
     (close_ssh_tunnel "tunnel-7" TunnelManager.new).manager = TunnelManager.new) ∧
    (close_ssh_tunnel "tunnel-7" TunnelManager.new).fired ≤ 1 :=
  ⟨(c3_theorem TunnelManager.new "tunnel-7").1 rfl,
   (c3_theorem TunnelManager.new "tunnel-7").2.2⟩

/-- C4: after a successful close of a registered id, status is false and
the id is gone from the list; status is true iff an entry exists; status
and list leave the manager untouched. -/
theorem c4_theorem (m : TunnelManager) (tid : String) :
    (Registry.containsKey m.tunnels tid = true →
      (close_ssh_tunnel tid m).result = .ok () ∧
      (check_tunnel_status tid (close_ssh_tunnel tid m).manager).1 = false ∧
      tid ∉ (list_active_tunnels (close_ssh_tunnel tid m).manager).1) ∧
    ((check_tunnel_status tid m).1 = true ↔
      ∃ v, Registry.lookupKey m.tunnels tid = some v) ∧
    (check_tunnel_status tid m).2 = m ∧
    (list_active_tunnels m).2 = m := by
  refine ⟨?_, containsKey_iff_lookupKey m.tunnels tid, rfl, rfl⟩
  intro h
  obtain ⟨v, hv⟩ := (containsKey_iff_lookupKey _ _).mp h
  rw [close_ssh_tunnel_eq_some m tid v hv]
  exact ⟨rfl, containsKey_removeKey_self _ _, not_mem_keysOf_removeKey _ _⟩

/-- C4 witness: open one tunnel, close it, observe status and list. -/
theorem c4_witness :
    (close_ssh_tunnel "tunnel-1" mgrOne).result = .ok () ∧
    (check_tunnel_status "tunnel-1" (close_ssh_tunnel "tunnel-1" mgrOne).manager).1 =
      false ∧
    "tunnel-1" ∉ (list_active_tunnels (close_ssh_tunnel "tunnel-1" mgrOne).manager).1 :=
  (c4_theorem mgrOne "tunnel-1").1 rfl

/-- C5: N sequential successful opens on a fresh manager issue exactly the
pairwise-distinct ids tunnel-1 … tunnel-N from the monotonically increasing
counter, and over any open sequence whatsoever (successes and failures
mixed) no id is ever issued twice in one process lifetime. -/
theorem c5_theorem (steps : List (Env × TunnelConfig))
    (hall : ∀ r ∈ (runOpens steps TunnelManager.new).1, ∃ t, r = Except.ok t) :
    issuedIds (runOpens steps TunnelManager.new).1 =
      (List.range steps.length).map (fun i => mkTunnelId (1 + i)) ∧
    (issuedIds (runOpens steps TunnelManager.new).1).Nodup ∧
    ∀ steps2 : List (Env × TunnelConfig),
      (issuedIds (runOpens steps2 TunnelManager.new).1).Nodup := by
  have hinj : Function.Injective (fun i => mkTunnelId (1 + i)) := by
    intro a b hab
    have := mkTunnelId_injective hab
    omega
  have hnodup : ∀ steps2 : List (Env × TunnelConfig),
      (issuedIds (runOpens steps2 TunnelManager.new).1).Nodup := by
    intro steps2
    obtain ⟨k, _, hk2⟩ := runOpens_spec steps2 TunnelManager.new
    rw [hk2]
    exact (List.nodup_range k).map hinj
  obtain ⟨k, hk1, hk2⟩ := runOpens_spec steps TunnelManager.new
  have hlen1 : (issuedIds (runOpens steps TunnelManager.new).1).length =
      steps.length := by
    rw [issuedIds_length_of_all_ok _ hall, runOpens_length]
  have hlenk : (issuedIds (runOpens steps TunnelManager.new).1).length = k := by
    rw [hk2]
    simp
  refine ⟨?_, hnodup steps, hnodup⟩
  rw [hk2, show k = steps.length by omega]
  rfl

/-- C5 witness: one successful open issues exactly tunnel-1. -/
theorem c5_witness :
    issuedIds (runOpens [(envAllOk, cfgPassword)] TunnelManager.new).1 =
      (List.range 1).map (fun i => mkTunnelId (1 + i)) ∧
    (issuedIds (runOpens [(envAllOk, cfgPassword)] TunnelManager.new).1).Nodup := by
  have hall : ∀ r ∈ (runOpens [(envAllOk, cfgPassword)] TunnelManager.new).1,
      ∃ t, r = Except.ok t := by
    intro r hr
    have hlist : (runOpens [(envAllOk, cfgPassword)] TunnelManager.new).1 =
        [Except.ok { tunnel_id := "tunnel-1", local_port := 54321 }] := rfl
    rw [hlist, List.mem_singleton] at hr
    exact ⟨_, hr⟩
  have h := c5_theorem [(envAllOk, cfgPassword)] hall
  exact ⟨h.1, h.2.1⟩

/-- C6: within one relay, the data frames sent on the channel are exactly
the non-empty local reads processed before the relay's stopping event,
unmodified and in order; and the bytes written to the local socket are
exactly the channel Data frames processed, verbatim and in order — each
direction characterized independently of the other. -/
theorem c6_theorem (evs : List RelayEvent) :
    (handle_connection evs).filterMap outChannelData =
      (evs.takeWhile (fun ev => !relayStops ev)).filterMap localReadBytes ∧
    (handle_connection evs).filterMap outLocalWrite =
      (evs.takeWhile (fun ev => !relayStops ev)).filterMap channelDataBytes := by
  induction evs with
  | nil => exact ⟨rfl, rfl⟩
  | cons ev rest ih =>
    cases ev with
    | localRead bs =>
      cases bs with
      | nil => exact ⟨rfl, rfl⟩
      | cons b bs2 =>
        exact ⟨by simp [handle_connection, relayStops, localReadBytes,
                 channelDataBytes, outChannelData, outLocalWrite,
                 List.takeWhile_cons, List.filterMap_cons, ih.1],
               by simp [handle_connection, relayStops, localReadBytes,
                 channelDataBytes, outChannelData, outLocalWrite,
                 List.takeWhile_cons, List.filterMap_cons, ih.2]⟩
    | localReadErr e => exact ⟨rfl, rfl⟩
    | channelMsg msg =>
      cases msg with
      | none => exact ⟨rfl, rfl⟩
      | some cm =>
        cases cm with
        | eof => exact ⟨rfl, rfl⟩
        | data d =>
          exact ⟨by simp [handle_connection, relayStops, localReadBytes,
                   channelDataBytes, outChannelData, outLocalWrite,
                   List.takeWhile_cons, List.filterMap_cons, ih.1],
                 by simp [handle_connection, relayStops, localReadBytes,
                   channelDataBytes, outChannelData, outLocalWrite,
                   List.takeWhile_cons, List.filterMap_cons, ih.2]⟩
        | close =>
          exact ⟨by simp [handle_connection, relayStops, localReadBytes,
                   channelDataBytes, outChannelData, outLocalWrite,
                   List.takeWhile_cons, List.filterMap_cons, ih.1],
                 by simp [handle_connection, relayStops, localReadBytes,
                   channelDataBytes, outChannelData, outLocalWrite,
                   List.takeWhile_cons, List.filterMap_cons, ih.2]⟩
        | extendedData d ext =>
          exact ⟨by simp [handle_connection, relayStops, localReadBytes,
                   channelDataBytes, outChannelData, outLocalWrite,
                   List.takeWhile_cons, List.filterMap_cons, ih.1],
                 by simp [handle_connection, relayStops, localReadBytes,
                   channelDataBytes, outChannelData, outLocalWrite,
                   List.takeWhile_cons, List.filterMap_cons, ih.2]⟩
        | windowAdjusted ns =>
          exact ⟨by simp [handle_connection, relayStops, localReadBytes,
                   channelDataBytes, outChannelData, outLocalWrite,
                   List.takeWhile_cons, List.filterMap_cons, ih.1],
                 by simp [handle_connection, relayStops, localReadBytes,
                   channelDataBytes, outChannelData, outLocalWrite,
                   List.takeWhile_cons, List.filterMap_cons, ih.2]⟩
        | success =>
          exact ⟨by simp [handle_connection, relayStops, localReadBytes,
                   channelDataBytes, outChannelData, outLocalWrite,
                   List.takeWhile_cons, List.filterMap_cons, ih.1],
                 by simp [handle_connection, relayStops, localReadBytes,
                   channelDataBytes, outChannelData, outLocalWrite,
                   List.takeWhile_cons, List.filterMap_cons, ih.2]⟩
        | exitStatus cd =>
          exact ⟨by simp [handle_connection, relayStops, localReadBytes,
                   channelDataBytes, outChannelData, outLocalWrite,
                   List.takeWhile_cons, List.filterMap_cons, ih.1],
                 by simp [handle_connection, relayStops, localReadBytes,
                   channelDataBytes, outChannelData, outLocalWrite,
                   List.takeWhile_cons, List.filterMap_cons, ih.2]⟩

/-- C7: once the shutdown signal appears in the accept loop's event stream,
events after it are irrelevant (no further connection is ever admitted);
the relays spawned are exactly the accepts preceding the first shutdown;
and every relay already spawned still runs its full own-event course,
unaffected by the shutdown. -/
theorem c7_theorem (pre post : List AcceptEvent) (relayEvs : Nat → List RelayEvent) :
    acceptLoop (pre ++ .shutdown :: post) = acceptLoop (pre ++ [.shutdown]) ∧
    (∀ evs : List AcceptEvent,
      acceptLoop evs =
        (evs.takeWhile (fun ev => !isShutdown ev)).filterMap acceptedConn) ∧
    tunnelRun (pre ++ .shutdown :: post) relayEvs =
      tunnelRun (pre ++ [.shutdown]) relayEvs ∧
    ∀ c outs, (c, outs) ∈ tunnelRun (pre ++ .shutdown :: post) relayEvs →
      outs = handle_connection (relayEvs c) := by
  refine ⟨acceptLoop_append_shutdown pre post, acceptLoop_eq_takeWhile, ?_, ?_⟩
  · unfold tunnelRun
    rw [acceptLoop_append_shutdown]
  · intro c outs h
    simp only [tunnelRun, List.mem_map] at h
    obtain ⟨c2, hc2, heq⟩ := h
    rw [Prod.ext_iff] at heq
    obtain ⟨h1, h2⟩ := heq
    simp only at h1 h2
    subst h1
    exact h2.symm

/-- C8: a failed open consumes no identifier — on any error the manager
(registry and counter) is returned unchanged; a successful open issues the
id minted from the pre-call counter and bumps the counter by one; hence
over any interleaving of successes and failures from a fresh manager the
issued ids are exactly the consecutive sequence tunnel-1, tunnel-2, …. -/
theorem c8_theorem :
    (∀ (env : Env) (config : TunnelConfig) (m : TunnelManager) (e : TunnelError),
      (establish_tunnel env config m).result = .error e →
      (establish_tunnel env config m).manager = m) ∧
    (∀ (env : Env) (config : TunnelConfig) (m : TunnelManager) (t : TunnelResult),
      (establish_tunnel env config m).result = .ok t →
      t.tunnel_id = mkTunnelId m.next_id ∧
      (establish_tunnel env config m).manager.next_id = m.next_id + 1) ∧
    ∀ steps : List (Env × TunnelConfig),
      issuedIds (runOpens steps TunnelManager.new).1 =
        (List.range (issuedIds (runOpens steps TunnelManager.new).1).length).map
          (fun i => mkTunnelId (1 + i)) := by
  refine ⟨?_, ?_, ?_⟩
  · intro env config m e he
    rcases establish_tunnel_error_or_ok env config m with ⟨_, hm⟩ | ⟨lp, hr, _⟩
    · exact hm
    · rw [hr] at he
      exact absurd he (by simp)
  · intro env config m t ht
    rcases establish_tunnel_error_or_ok env config m with ⟨⟨e, he⟩, _⟩ | ⟨lp, hr, hm⟩
    · rw [he] at ht
      exact absurd ht (by simp)
    · rw [hr] at ht
      injection ht with ht'
      subst ht'
      rw [hm]
      exact ⟨rfl, rfl⟩
  · intro steps
    obtain ⟨k, _, hk2⟩ := runOpens_spec steps TunnelManager.new
    rw [hk2]
    have hlen : ((List.range k).map
        (fun i => mkTunnelId (TunnelManager.new.next_id + i))).length = k := by
      simp
    rw [hlen]
    rfl

/-- C8 witness: a timed-out open leaves the fresh manager untouched; a
successful open issues tunnel-1 and bumps the counter; a failed-only run
issues the empty consecutive sequence. -/
theorem c8_witness :
    (establish_tunnel envTimeout cfgPassword TunnelManager.new).manager =
      TunnelManager.new ∧
    (({ tunnel_id := "tunnel-1", local_port := 54321 } : TunnelResult).tunnel_id =
       mkTunnelId TunnelManager.new.next_id ∧
     (establish_tunnel envAllOk cfgPassword TunnelManager.new).manager.next_id =
       TunnelManager.new.next_id + 1) ∧
    issuedIds (runOpens [(envTimeout, cfgPassword)] TunnelManager.new).1 =
      (List.range
        (issuedIds (runOpens [(envTimeout, cfgPassword)] TunnelManager.new).1).length).map
        (fun i => mkTunnelId (1 + i)) :=
  ⟨c8_theorem.1 envTimeout cfgPassword TunnelManager.new _ rfl,
   c8_theorem.2.1 envAllOk cfgPassword TunnelManager.new _ rfl,
   c8_theorem.2.2 [(envTimeout, cfgPassword)]⟩

lemma establish_tunnel_congr (env : Env) (c1 c2 : TunnelConfig) (m : TunnelManager)
    (h : authStep env c1 = authStep env c2) :
    establish_tunnel env c1 m = establish_tunnel env c2 m := by
  unfold establish_tunnel
  rw [h]

/-- C9: credential fields not selected by the auth method are never
inspected — under the password method the whole outcome is invariant in
both key fields, under the key method it is invariant in the password
field, and a config populating both credential kinds at once succeeds
rather than being rejected. -/
theorem c9_theorem (env : Env) (m : TunnelManager) (cfg : TunnelConfig) :
    (cfg.auth_method = "password" → cfg.password.isSome = true →
      ∀ kp1 kpp1 kp2 kpp2,
        establish_tunnel env { cfg with key_path := kp1, key_passphrase := kpp1 } m =
        establish_tunnel env { cfg with key_path := kp2, key_passphrase := kpp2 } m) ∧
    (cfg.auth_method = "key" →
      ∀ pw1 pw2,
        establish_tunnel env { cfg with password := pw1 } m =
        establish_tunnel env { cfg with password := pw2 } m) ∧
    (establish_tunnel envAllOk cfgBothCreds TunnelManager.new).result =
      .ok { tunnel_id := mkTunnelId 1, local_port := 54321 } := by
  obtain ⟨hh, hp, hu, ham, hpw, hkp, hkpp, hrh, hrp⟩ := cfg
  refine ⟨?_, ?_, rfl⟩
  · intro h1 _ kp1 kpp1 kp2 kpp2
    simp only at h1
    subst h1
    exact establish_tunnel_congr env _ _ m rfl
  · intro h2 pw1 pw2
    simp only at h2
    subst h2
    exact establish_tunnel_congr env _ _ m rfl

/-- C9 witness: the invariances applied at concrete key/password values,
plus the both-credentials config succeeding. -/
theorem c9_witness :
    establish_tunnel envAllOk
        { cfgPassword with key_path := some "/a", key_passphrase := some "x" }
        TunnelManager.new =
      establish_tunnel envAllOk
        { cfgPassword with key_path := none, key_passphrase := none }
        TunnelManager.new ∧
    establish_tunnel envAllOk { cfgKey with password := some "pw2" } TunnelManager.new =
      establish_tunnel envAllOk { cfgKey with password := none } TunnelManager.new ∧
    (establish_tunnel envAllOk cfgBothCreds TunnelManager.new).result =
      .ok { tunnel_id := mkTunnelId 1, local_port := 54321 } :=
  ⟨(c9_theorem envAllOk TunnelManager.new cfgPassword).1 rfl rfl
     (some "/a") (some "x") none none,
   (c9_theorem envAllOk TunnelManager.new cfgKey).2.1 rfl (some "pw2") none,
   (c9_theorem envAllOk TunnelManager.new cfgKey).2.2⟩

/-- C10: only Data frames are ever written to the local socket — any other
incoming channel message may be deleted from the event stream without
changing the relay's behaviour at all (it is silently discarded and does
not terminate the relay), and every local write traces back to a Data
frame in the event stream. -/
theorem c10_theorem :
    (∀ (pre post : List RelayEvent) (msg : ChannelMessage), ignoredMsg msg = true →
      handle_connection (pre ++ .channelMsg (some msg) :: post) =
        handle_connection (pre ++ post)) ∧
    ∀ (evs : List RelayEvent) (bs : List Nat),
      .localWrite bs ∈ handle_connection evs →
      .channelMsg (some (.data bs)) ∈ evs := by
  constructor
  · intro pre post msg hmsg
    induction pre with
    | nil =>
      cases msg with
      | data d => simp [ignoredMsg] at hmsg
      | eof => simp [ignoredMsg] at hmsg
      | close => rfl
      | extendedData d ext => rfl
      | windowAdjusted ns => rfl
      | success => rfl
      | exitStatus cd => rfl
    | cons ev rest ih =>
      cases ev with
      | localRead bs =>
        cases bs with
        | nil => rfl
        | cons b bs2 =>
          simp only [List.cons_append, handle_connection]
          exact congrArg _ ih
      | localReadErr e => rfl
      | channelMsg m2 =>
        cases m2 with
        | none => rfl
        | some cm =>
          cases cm with
          | data d =>
            simp only [List.cons_append, handle_connection]
            exact congrArg _ ih
          | eof => rfl
          | close =>
            simp only [List.cons_append, handle_connection]
            exact ih
          | extendedData d ext =>
            simp only [List.cons_append, handle_connection]
            exact ih
          | windowAdjusted ns =>
            simp only [List.cons_append, handle_connection]
            exact ih
          | success =>
            simp only [List.cons_append, handle_connection]
            exact ih
          | exitStatus cd =>
            simp only [List.cons_append, handle_connection]
            exact ih
  · intro evs
    induction evs with
    | nil =>
      intro bs h
      exact absurd h (by simp [handle_connection])
    | cons ev rest ih =>
      intro bs h
      cases ev with
      | localRead bs2 =>
        cases bs2 with
        | nil => exact absurd h (by simp [handle_connection])
        | cons b bs3 =>
          simp only [handle_connection, List.mem_cons] at h
          rcases h with h | h
          · exact absurd h (by simp)
          · exact List.mem_cons_of_mem _ (ih bs h)
      | localReadErr e => exact absurd h (by simp [handle_connection])
      | channelMsg m2 =>
        cases m2 with
        | none => exact absurd h (by simp [handle_connection])
        | some cm =>
          cases cm with
          | data d =>
            simp only [handle_connection, List.mem_cons] at h
            rcases h with h | h
            · injection h with h'
              subst h'
              exact List.mem_cons_self _ _
            · exact List.mem_cons_of_mem _ (ih bs h)
          | eof => exact absurd h (by simp [handle_connection])
          | close =>
            simp only [handle_connection] at h
            exact List.mem_cons_of_mem _ (ih bs h)
          | extendedData d ext =>
            simp only [handle_connection] at h
            exact List.mem_cons_of_mem _ (ih bs h)
          | windowAdjusted ns =>
            simp only [handle_connection] at h
            exact List.mem_cons_of_mem _ (ih bs h)
          | success =>
            simp only [handle_connection] at h
            exact List.mem_cons_of_mem _ (ih bs h)
          | exitStatus cd =>
            simp only [handle_connection] at h
            exact List.mem_cons_of_mem _ (ih bs h)

/-- C10 witness: deleting a window-adjust message between two reads leaves
the relay's behaviour unchanged, and a concrete local write traces back to
its Data frame. -/
theorem c10_witness :
    handle_connection
        ([.localRead [1]] ++ .channelMsg (some (.windowAdjusted 9)) :: [.localRead [2]]) =
      handle_connection ([.localRead [1]] ++ [.localRead [2]]) ∧
    RelayEvent.channelMsg (some (.data [5])) ∈
      ([.channelMsg (some (.data [5]))] : List RelayEvent) :=
  ⟨c10_theorem.1 [.localRead [1]] [.localRead [2]] (.windowAdjusted 9) rfl,
   c10_theorem.2 [.channelMsg (some (.data [5]))] [5] (by decide)⟩

end Seaquel
